import Mathlib

/-!
Formal model of the pyrsync incremental backup tool (src/pyrsync/backup.py,
src/pyrsync/rotate.py) as a shallow embedding, together with theorems about
its snapshot bookkeeping, state persistence, rotation and readiness logic.

External subprocess outcomes (ping exit status, ssh output, rsync exit code)
are supplied as explicit oracle inputs; everything else is translated
directly from the Python source.
-/

set_option maxRecDepth 1000000

namespace Pyrsync

/-! ### Characters and low-level string helpers -/

def slashChar : Char := Char.ofNat 47

lemma slashChar_lit : slashChar = Char.ofNat 47 := rfl

def nlChar : Char := Char.ofNat 10

/-- First character of the list is a slash (models `str.startswith('/')`). -/
def startsSlashL : List Char → Bool
  | [] => false
  | ch :: _ => ch == slashChar

/-- Last character of the list is a slash (models `str.endswith('/')`). -/
def endsSlashL (l : List Char) : Bool :=
  match l.getLast? with
  | some ch => ch == slashChar
  | none => false

/-- Python string truthiness: a string is truthy iff it is non-empty. -/
def truthyStr (s : String) : Bool := !s.data.isEmpty

/-! ### SHA-1 (RFC 3174), as used by `hashlib.sha1` in `BackupJob.__create_hash__` -/

def M32 : Nat := 4294967296

/-- Rotate a 32-bit word left by `n` bits. -/
def rotl (n x : Nat) : Nat := ((x <<< n) ||| (x >>> (32 - n))) % M32

/-- UTF-8 encoding of a single code point (models `str.encode('UTF-8')`). -/
def utf8Bytes (c : Nat) : List Nat :=
  if c < 128 then [c]
  else if c < 2048 then
    [192 ||| (c >>> 6), 128 ||| (c &&& 63)]
  else if c < 65536 then
    [224 ||| (c >>> 12), 128 ||| ((c >>> 6) &&& 63), 128 ||| (c &&& 63)]
  else
    [240 ||| (c >>> 18), 128 ||| ((c >>> 12) &&& 63),
     128 ||| ((c >>> 6) &&& 63), 128 ||| (c &&& 63)]

def strToBytes (s : String) : List Nat :=
  (s.data.map (fun ch => utf8Bytes ch.toNat)).flatten

/-- Big-endian 32-bit words from a list of bytes. -/
def toWords : List Nat → List Nat
  | b0 :: b1 :: b2 :: b3 :: rest =>
      (((b0 * 256 + b1) * 256 + b2) * 256 + b3) :: toWords rest
  | _ => []

def extendStep (w : List Nat) : List Nat :=
  let n := w.length
  w ++ [rotl 1 ((((w.getD (n - 3) 0) ^^^ (w.getD (n - 8) 0)) ^^^
                 (w.getD (n - 14) 0)) ^^^ (w.getD (n - 16) 0))]

def iter {α : Type} (f : α → α) : Nat → α → α
  | 0, a => a
  | k + 1, a => iter f k (f a)

/-- The 80-entry SHA-1 message schedule of a 64-byte block. -/
def sha1Words (block : List Nat) : List Nat := iter extendStep 64 (toWords block)

structure H5 where
  a : Nat
  b : Nat
  c : Nat
  d : Nat
  e : Nat
deriving DecidableEq, Repr

def sha1F (t b c d : Nat) : Nat :=
  if t < 20 then (b &&& c) ||| ((b ^^^ 4294967295) &&& d)
  else if t < 40 then (b ^^^ c) ^^^ d
  else if t < 60 then ((b &&& c) ||| (b &&& d)) ||| (c &&& d)
  else (b ^^^ c) ^^^ d

def sha1K (t : Nat) : Nat :=
  if t < 20 then 1518500249
  else if t < 40 then 1859775393
  else if t < 60 then 2400959708
  else 3395469782

def roundStep (w : List Nat) (st : H5) (t : Nat) : H5 :=
  let temp := (rotl 5 st.a + sha1F t st.b st.c st.d + st.e + sha1K t + w.getD t 0) % M32
  ⟨temp, st.a, rotl 30 st.b, st.c, st.d⟩

def processBlock (h : H5) (block : List Nat) : H5 :=
  let w := sha1Words block
  let st := (List.range 80).foldl (roundStep w) h
  ⟨(h.a + st.a) % M32, (h.b + st.b) % M32, (h.c + st.c) % M32,
   (h.d + st.d) % M32, (h.e + st.e) % M32⟩

/-- 8-byte big-endian encoding of the message bit length. -/
def be8 (n : Nat) : List Nat :=
  [(n >>> 56) % 256, (n >>> 48) % 256, (n >>> 40) % 256, (n >>> 32) % 256,
   (n >>> 24) % 256, (n >>> 16) % 256, (n >>> 8) % 256, n % 256]

def sha1Pad (msg : List Nat) : List Nat :=
  let z := (120 - ((msg.length + 1) % 64)) % 64
  msg ++ 128 :: List.replicate z 0 ++ be8 (8 * msg.length)

/-- Split into 64-byte chunks.  The fuel argument (an upper bound on the
number of chunks, decremented structurally) keeps the recursion
kernel-reducible; each step consumes at least one byte, so `l.length`
fuel suffices. -/
def chunks64Go : Nat → List Nat → List (List Nat)
  | 0, _ => []
  | _, [] => []
  | fuel + 1, b :: rest => ((b :: rest).take 64) :: chunks64Go fuel ((b :: rest).drop 64)

def chunks64 (l : List Nat) : List (List Nat) := chunks64Go l.length l

def hexDigit (n : Nat) : Char :=
  if n < 10 then Char.ofNat (48 + n) else Char.ofNat (87 + n)

def hex8 (n : Nat) : List Char :=
  (List.range 8).map (fun i => hexDigit ((n >>> (28 - 4 * i)) % 16))

def sha1Hex (msg : List Nat) : String :=
  let h := (chunks64 (sha1Pad msg)).foldl processBlock
    ⟨1732584193, 4023233417, 2562383102, 271733878, 3285377520⟩
  String.mk (hex8 h.a ++ hex8 h.b ++ hex8 h.c ++ hex8 h.d ++ hex8 h.e)

/-- Model of `BackupJob.__create_hash__` (backup.py lines 102-107):
`hashlib.sha1(source_dir.encode('UTF-8')).hexdigest()`. -/
def create_hash (source_dir : String) : String := sha1Hex (strToBytes source_dir)

/-! ### POSIX path functions used by the source (`os.path.join`, `os.path.normpath`,
`os.path.basename`) and `file.readline` -/

/-- One step of `posixpath.join`: `join(a, b)` for a single extra component. -/
def ospJoin2 (a b : String) : String :=
  if startsSlashL b.data then b
  else if a.data.isEmpty || endsSlashL a.data then String.mk (a.data ++ b.data)
  else String.mk (a.data ++ slashChar :: b.data)

/-- `os.path.join(a, r1, r2, ...)` on POSIX. -/
def ospJoin (a : String) (rest : List String) : String := rest.foldl ospJoin2 a

/-- Split a character list on slashes (models `str.split('/')`). -/
def splitOnSlashL (l : List Char) : List (List Char) :=
  l.foldr
    (fun ch acc =>
      if ch == slashChar then [] :: acc
      else
        match acc with
        | h :: t => (ch :: h) :: t
        | [] => [[ch]])
    [[]]

/-- Interleave slashes between components (models `'/'.join(comps)`). -/
def joinSlash : List (List Char) → List Char
  | [] => []
  | [x] => x
  | x :: y :: rest => x ++ slashChar :: joinSlash (y :: rest)

/-- Model of `posixpath.normpath`. -/
def normpath (path : String) : String :=
  if path.data.isEmpty then "."
  else
    let initialSlashes : Nat :=
      if startsSlashL path.data then
        (if startsSlashL (path.data.drop 1) && !startsSlashL (path.data.drop 2)
         then 2 else 1)
      else 0
    let comps := splitOnSlashL path.data
    let newComps := comps.foldl
      (fun acc comp =>
        if comp.isEmpty || comp == [Char.ofNat 46] then acc
        else if !(comp == [Char.ofNat 46, Char.ofNat 46])
                || (initialSlashes == 0 && acc.isEmpty)
                || (!acc.isEmpty && acc.getLast? == some [Char.ofNat 46, Char.ofNat 46]) then
          acc ++ [comp]
        else if !acc.isEmpty then acc.dropLast
        else acc)
      []
    let p := List.replicate initialSlashes slashChar ++ joinSlash newComps
    if p.isEmpty then "." else String.mk p

/-- Characters after the last slash. -/
def afterLastSlash (l : List Char) : List Char :=
  l.foldl (fun acc ch => if ch == slashChar then [] else acc ++ [ch]) []

/-- Model of `posixpath.basename`. -/
def basename (p : String) : String := String.mk (afterLastSlash p.data)

/-- Model of `BackupJob.get_basename` (backup.py lines 132-134). -/
def get_basename (source_dir : String) : String := basename (normpath source_dir)

/-- First line of a file content, newline kept (models `file.readline()`). -/
def readlineL : List Char → List Char
  | [] => []
  | ch :: rest => if ch == nlChar then [ch] else ch :: readlineL rest

def readline (s : String) : String := String.mk (readlineL s.data)

/-! ### Filesystem abstraction

Only what the modelled code observes: which directories exist and which
files exist with what content. -/

structure FS where
  dirs : List String
  files : List (String × String)
deriving DecidableEq, Repr

def FS.readFile (fs : FS) (p : String) : Option String :=
  (fs.files.find? (fun kv => kv.1 == p)).map (fun kv => kv.2)

/-- Models `os.path.isfile`. -/
def FS.isFile (fs : FS) (p : String) : Bool := (FS.readFile fs p).isSome

/-- Models `os.path.exists` (restricted to the dirs/files the model tracks). -/
def FS.pathExists (fs : FS) (p : String) : Bool :=
  fs.dirs.contains p || FS.isFile fs p

/-! ### Configuration and location objects -/

/-- The `[general_settings]` section fields read by `BackupLocation.__init__`. -/
structure GeneralSettings where
  source_user : String
  source_host : String
  hwaddr : String
  target_user : String
  target_host : String
  backup_root : String
deriving DecidableEq, Repr

structure BackupLocation where
  source_user : String
  source_host : String
  hwaddr : String
  target_user : String
  target_host : String
  backup_root : String
  state_dir : String
deriving DecidableEq, Repr

/-- Model of `BackupLocation.__init__` (backup.py lines 34-53).  The final
`if not os.path.exists(self.state_dir):` has `pass` as its body — the
`os.makedirs(self.state_dir)` call on line 53 is commented out — so the
filesystem is returned unchanged on both branches. -/
def BackupLocation.init (s : GeneralSettings) (fs : FS) : BackupLocation × FS :=
  let state_dir := ospJoin s.backup_root ["rsync-backup"]
  let fs1 := if FS.pathExists fs state_dir then fs else fs
  (⟨s.source_user, s.source_host, s.hwaddr, s.target_user, s.target_host,
    s.backup_root, state_dir⟩, fs1)

/-- The per-job section fields read by `BackupJob.__init__`. -/
structure JobSettings where
  source_dir : String
  target_dir : String
deriving DecidableEq, Repr

/-! ### BackupJob -/

/-- Model of `BackupJob.get_previous_id` (backup.py lines 113-130): read the
state file named by the SHA-1 of the source dir; `''` when absent. -/
def get_previous_id (loc : BackupLocation) (fs : FS) (source_dir : String) : String :=
  let sf := ospJoin loc.state_dir [create_hash source_dir]
  match FS.readFile fs sf with
  | some content => readline content
  | none => ""

/-- Model of `BackupJob.get_previous_target` (backup.py lines 136-138). -/
def get_previous_target (target_dir prev_id subfolder : String) : String :=
  ospJoin target_dir [prev_id, subfolder]

/-- Model of `BackupJob.get_backup_source` (backup.py lines 140-155). -/
def get_backup_source (loc : BackupLocation) (source_dir : String) : String :=
  if truthyStr loc.source_user && truthyStr loc.source_host then
    loc.source_user ++ "@" ++ loc.source_host ++ ":" ++ source_dir
  else source_dir

/-- Model of `BackupJob.get_backup_target` (backup.py lines 157-166). -/
def get_backup_target (loc : BackupLocation) (target_dir new_id subfolder : String) :
    String :=
  let backup_path := ospJoin target_dir [new_id, subfolder]
  if truthyStr loc.target_user && truthyStr loc.target_host then
    loc.target_user ++ "@" ++ loc.target_host ++ ":" ++ backup_path
  else backup_path

/-- The instance attributes `BackupJob.__init__` assigns.  `force` is set
only when `--force` was passed (line 91); the else-branch on line 93
misspells the attribute name, assigning `self.foce = False`, which the
field `foce` records. -/
structure BackupJob where
  source_dir : String
  target_dir : String
  new_id : String
  prev_id : String
  subfolder : String
  prev_target : String
  backup_source : String
  backup_target : String
  log_file : String
  dry_run : Bool
  force : Option Bool
  foce : Option Bool
  extra_rsync_args : List String
  rsync_exclude_list : String
deriving DecidableEq, Repr

/-- Model of `BackupJob.__init__` (backup.py lines 56-99).  `get_new_id`
reads the wall clock (`datetime.now().strftime('%Y-%m-%d')`); the current
date is injected as `today`. -/
def mkBackupJob (loc : BackupLocation) (s : JobSettings) (fs : FS)
    (rsync_args : List String) (today : String) : BackupJob :=
  let new_id := today
  let prev_id := get_previous_id loc fs s.source_dir
  let subfolder := get_basename s.source_dir
  let dry_run := rsync_args.contains "--dry-run"
  let hasForce := rsync_args.contains "--force"
  { source_dir := s.source_dir
    target_dir := s.target_dir
    new_id := new_id
    prev_id := prev_id
    subfolder := subfolder
    prev_target := get_previous_target s.target_dir prev_id subfolder
    backup_source := get_backup_source loc s.source_dir
    backup_target := get_backup_target loc s.target_dir new_id subfolder
    log_file := ospJoin loc.backup_root [new_id, "rsync-backup.log"]
    dry_run := dry_run
    force := if hasForce then some true else none
    foce := if hasForce then none else some false
    extra_rsync_args := if hasForce then rsync_args.erase "--force" else rsync_args
    rsync_exclude_list := ospJoin loc.backup_root ["rsync-exclude-list.txt"] }

/-! ### Python runtime errors and observable side effects -/

inductive PyError where
  | attributeError (name : String)
  | typeError (msg : String)
  | calledProcessError (code : Nat)
deriving DecidableEq, Repr

inductive Effect where
  | logCheck (source : String)
  | getstatusoutput (cmd : String)
  | wake (hwaddr : String)
  | sshAccess (host user : String)
  | sshDirTest (host user dir : String)
  | spawnCount (cmd : Option (List String))
  | spawnRsync (cmd : List String)
  | writeState (path content : String)
  | rotate (path : String) (dryRun : Bool) (exclude : String)
  | unlinkCurrent (path : String)
  | symlinkCurrent (src dst : String)
deriving DecidableEq, Repr

/-! ### The attribute dictionary of a `Backup` instance

`Backup.__init__` (backup.py lines 175-204) assigns `logger`, `base_dir`,
`live`, `gs` and `jobs`; the class body defines the listed methods.
Several methods read attributes outside this set (`state_dir`,
`backup_root`, `source_user`, `__create_hash__`, ...), which raises
`AttributeError` at run time. -/

def Backup.instanceAttrs : List String :=
  ["logger", "base_dir", "live", "gs", "jobs"]

def Backup.classAttrs : List String :=
  ["__init__", "__call__", "execute_backup", "send_message", "prep_rsync",
   "update_symlink", "update_state", "__RemoteServerCheck__", "rsync"]

def Backup.getattr (name : String) : Except PyError Unit :=
  if Backup.instanceAttrs.contains name || Backup.classAttrs.contains name then
    Except.ok ()
  else Except.error (PyError.attributeError name)

/-! ### The rsync command construction (`Backup.rsync`, backup.py lines 369-399) -/

def base_rsync_flags : List String :=
  ["rsync", "--recursive", "--links", "--times", "--itemize-changes",
   "--devices", "--specials", "--delete", "--human-readable",
   "--delete-excluded", "--ignore-existing", "--progress", "--stats"]

/-- The fully assembled `rsync_cmd` list: base flags, then
`--exclude-from=...`, then the extra arguments, then `--link-dest=...`
(appended unconditionally, line 393), then source, then target. -/
def build_rsync_cmd (job : BackupJob) : List String :=
  (((base_rsync_flags ++ ["--exclude-from=" ++ job.rsync_exclude_list])
      ++ job.extra_rsync_args)
      ++ ["--link-dest=" ++ job.prev_target])
      ++ [job.backup_source, job.backup_target]

/-! ### The preliminary file-count pass (backup.py lines 413-427)

`_rsync_cmd = rsync_cmd` aliases the same list object.  In the non-dry-run
branch, `_rsync_cmd = _rsync_cmd.append('--dry-run ')` mutates the shared
list (adding `'--dry-run '`) and rebinds `_rsync_cmd` to the return value
of `list.append`, which is `None`. -/

inductive PyListRef where
  | ref
  | pyNone
deriving DecidableEq, Repr

/-- `list.append`: mutates the cell in place and evaluates to `None`. -/
def pyAppend (cell : List String) (x : String) : List String × PyListRef :=
  (cell ++ [x], PyListRef.pyNone)

/-- Result of the lines 413-419 block: the value bound to `_rsync_cmd` and
the final contents of the shared `rsync_cmd` list object. -/
def countingPass (dry_run : Bool) (cmd0 : List String) : PyListRef × List String :=
  if dry_run then (PyListRef.ref, cmd0)
  else
    let r := pyAppend cmd0 "--dry-run "
    (r.2, r.1)

/-- Dereference the variable as `subprocess.Popen` receives it. -/
def deref (cell : List String) : PyListRef → Option (List String)
  | PyListRef.ref => some cell
  | PyListRef.pyNone => none

def noneIterMsg : String := "NoneType object is not iterable"

def bytesPatternMsg : String := "cannot use a string pattern on a bytes-like object"

/-- Model of `Backup.rsync` (backup.py lines 369-461).  Oracles:
`countOutput` is the stdout of the preliminary counting subprocess and
`mainExit` the exit status of the main transfer.

Control flow of the source: after the counting-pass block, the counting
`Popen` is spawned with `_rsync_cmd`; when that is `None` (every
non-dry-run job) `Popen` raises `TypeError`.  Otherwise the stdout loop
runs `re.findall` with a `str` pattern on `bytes` lines
(`universal_newlines=False`), raising `TypeError` on the first output
line; with no output, `send_message` (line 437) is reached, which reads
the missing attribute `self.source_user` (line 262) and raises
`AttributeError`.  The main transfer `Popen` (line 440) and the
`CalledProcessError` raise on a non-zero exit (lines 458-459) follow. -/
def Backup.rsync (job : BackupJob) (countOutput : List String) (mainExit : Nat) :
    List Effect × Except PyError Unit :=
  let rsync_cmd := build_rsync_cmd job
  let cp := countingPass job.dry_run rsync_cmd
  match deref cp.2 cp.1 with
  | none => ([Effect.spawnCount none], Except.error (PyError.typeError noneIterMsg))
  | some c =>
    if countOutput.isEmpty then
      match Backup.getattr "source_user" with
      | Except.error e => ([Effect.spawnCount (some c)], Except.error e)
      | Except.ok _ =>
        ([Effect.spawnCount (some c), Effect.spawnRsync cp.2],
         if mainExit ≠ 0 then Except.error (PyError.calledProcessError mainExit)
         else Except.ok ())
    else
      ([Effect.spawnCount (some c)], Except.error (PyError.typeError bytesPatternMsg))

/-! ### Remote readiness check (`Backup.__RemoteServerCheck__`, backup.py lines 302-366) -/

/-- Oracle outcomes of the external probes. -/
structure RemoteEnv where
  pingShort : Bool
  reprobe : List Bool
  sshEcho : Bool
  dirTestExit : Nat
deriving DecidableEq, Repr

def probeCmd (host : String) : String := "ping -W2 -c1 " ++ host

/-- The re-probe command string of line 314, kept verbatim: the source
writes `"ping -W10 c-1 "` (the dash of `-c1` is missing). -/
def reprobeCmd (host : String) : String := "ping -W10 c-1 " ++ host

/-- The wake loop of `__AvailabilityTest__` (lines 311-318): up to five
wake packets, re-probing after each, breaking out of the loop on a
successful re-probe.  The loop only breaks; the status it leaves behind is
never consulted, because the enclosing function falls off its end. -/
def wakeAttempts (host hwaddr : String) : List Bool → List Effect
  | [] => []
  | ok :: rest =>
    Effect.wake hwaddr :: Effect.getstatusoutput (reprobeCmd host) ::
      (if ok then [] else wakeAttempts host hwaddr rest)

/-- Model of `__AvailabilityTest__` (lines 304-324).  The Python function
returns `True` when the initial ping succeeds (`elif status == 0`), and
when the initial ping fails it runs the wake loop and then falls off the
end of the function, returning `None` — there is no `return` after the
loop.  The trailing `else` branch (line 322) is unreachable.  The result
type `Option Bool` records this: `none` is Python's `None`. -/
def availabilityTest (host hwaddr : String) (env : RemoteEnv) :
    List Effect × Option Bool :=
  if env.pingShort = false then
    (Effect.getstatusoutput (probeCmd host) ::
       wakeAttempts host hwaddr ((List.range 5).map (fun i => env.reprobe.getD i false)),
     none)
  else
    ([Effect.getstatusoutput (probeCmd host)], some true)

/-- Model of `__AccessTest__` (lines 326-335): truthiness of the captured
stdout of `ssh ... echo True`. -/
def accessTest (host username : String) (env : RemoteEnv) : List Effect × Bool :=
  ([Effect.sshAccess host username], env.sshEcho)

/-- Model of `__RemoteDirTest__` (lines 337-351): runs `[ ! -d dir ]`
remotely; the directory exists iff the negated test exits 1. -/
def remoteDirTest (host username dir : String) (env : RemoteEnv) :
    List Effect × Bool :=
  ([Effect.sshDirTest host username dir], env.dirTestExit == 1)

/-- Python truthiness of an `Option Bool` (`None` is falsy). -/
def truthy : Option Bool → Bool
  | some b => b
  | none => false

/-- Model of `Backup.__RemoteServerCheck__` (lines 353-366). -/
def remoteServerCheck (job : BackupJob) (loc : BackupLocation) (env : RemoteEnv) :
    List Effect × Bool :=
  let a := availabilityTest loc.source_host loc.hwaddr env
  if truthy a.2 then
    let b := accessTest loc.source_host loc.source_user env
    if b.2 then
      let c := remoteDirTest loc.source_host loc.source_user job.source_dir env
      (a.1 ++ b.1 ++ c.1, c.2)
    else (a.1 ++ b.1, false)
  else (a.1, false)

/-! ### State and symlink updates -/

/-- Model of `Backup.update_state` (backup.py lines 291-299).  Its first
statement (line 294) evaluates `self.__create_hash__(source_dir)`, but a
`Backup` instance has no attribute or method `__create_hash__` (the method
lives on `BackupJob`), so the call raises `AttributeError` before any file
is touched; line 297 would likewise read the missing `self.state_dir`. -/
def update_state (source_dir new_id target_dir : String) :
    List Effect × Except PyError Unit :=
  match Backup.getattr "__create_hash__" with
  | Except.error e => ([], Except.error e)
  | Except.ok _ =>
    match Backup.getattr "state_dir" with
    | Except.error e => ([], Except.error e)
    | Except.ok _ => ([], Except.ok ())

/-- Model of `Backup.update_symlink` (backup.py lines 279-289).  Line 281
evaluates `os.path.join(self.backup_root, new_id)`, but a `Backup`
instance has no attribute `backup_root` (it lives on `BackupLocation`), so
the method raises `AttributeError` before unlinking or symlinking. -/
def update_symlink (new_id : String) : List Effect × Except PyError Unit :=
  match Backup.getattr "backup_root" with
  | Except.error e => ([], Except.error e)
  | Except.ok _ => ([], Except.ok ())

/-! ### The orchestrator (`Backup.execute_backup` and `Backup.__call__`) -/

/-- Model of `Backup.execute_backup` (backup.py lines 225-259),
parameterised by the observable behaviour of the `self.rsync(job)` call
(its effect trace and its normal/raising outcome); `Backup.rsync` below is
the faithful instantiation.  On the success path the state update (line
243) runs before the rotation call (line 245), whose arguments are
`path=job.target_dir, dry_run=False, exclude=job.prev_target`. -/
def execute_backup (loc : BackupLocation) (job : BackupJob) (renv : RemoteEnv)
    (rsyncCall : List Effect × Except PyError Unit) :
    List Effect × Except PyError (Option String × Bool) :=
  if job.new_id ≠ job.prev_id then
    let chk := remoteServerCheck job loc renv
    if chk.2 then
      match rsyncCall with
      | (t2, Except.error e) =>
        (Effect.logCheck job.source_dir :: (chk.1 ++ t2), Except.error e)
      | (t2, Except.ok _) =>
        if job.dry_run then
          (Effect.logCheck job.source_dir :: (chk.1 ++ t2),
           Except.ok (some job.new_id, true))
        else
          let us := update_state job.source_dir job.new_id job.target_dir
          match us.2 with
          | Except.error e =>
            (Effect.logCheck job.source_dir :: (chk.1 ++ t2 ++ us.1), Except.error e)
          | Except.ok _ =>
            (Effect.logCheck job.source_dir ::
               (chk.1 ++ t2 ++ us.1 ++
                 [Effect.rotate job.target_dir false job.prev_target]),
             Except.ok (some job.new_id, true))
    else
      (Effect.logCheck job.source_dir :: chk.1, Except.ok (none, false))
  else
    ([Effect.logCheck job.source_dir], Except.ok (none, false))

/-- One entry of the per-job loop: the job object, the probe oracles, and
the observable behaviour of the `self.rsync(job)` call. -/
structure JobRun where
  job : BackupJob
  renv : RemoteEnv
  rsyncCall : List Effect × Except PyError Unit
deriving Repr

/-- The fully composed per-job run, with `Backup.rsync` as the callee. -/
def mkJobRun (job : BackupJob) (renv : RemoteEnv) (countOutput : List String)
    (mainExit : Nat) : JobRun :=
  ⟨job, renv, Backup.rsync job countOutput mainExit⟩

/-- Python truthiness of the `new_id` return value (`False` or a string). -/
def pyTruthy : Option String → Bool
  | some s => truthyStr s
  | none => false

/-- Model of the body of the per-job loop in `Backup.__call__` (backup.py
lines 208-220): run `execute_backup`, and on a truthy `new_id` with
`update` set, re-link the `current` symlink unless the job was a dry
run. -/
def processJob (loc : BackupLocation) (jr : JobRun) :
    List Effect × Except PyError Unit :=
  match execute_backup loc jr.job jr.renv jr.rsyncCall with
  | (t, Except.error e) => (t, Except.error e)
  | (t, Except.ok (nid, update)) =>
    if pyTruthy nid then
      if update then
        if jr.job.dry_run then (t, Except.ok ())
        else
          let us := update_symlink (nid.getD "")
          match us.2 with
          | Except.error e => (t ++ us.1, Except.error e)
          | Except.ok _ => (t ++ us.1, Except.ok ())
      else (t, Except.ok ())
    else (t, Except.ok ())

/-- Model of the loop in `Backup.__call__` (backup.py lines 206-220).  The
loop body has no exception handler, so an error raised while processing
one job propagates and the remaining jobs are never reached. -/
def runJobs (loc : BackupLocation) : List JobRun → List Effect × Except PyError Unit
  | [] => ([], Except.ok ())
  | jr :: rest =>
    match processJob loc jr with
    | (t, Except.error e) => (t, Except.error e)
    | (t, Except.ok _) =>
      let r := runJobs loc rest
      (t ++ r.1, r.2)

/-! ### Trace predicates -/

def isWriteStateE : Effect → Bool
  | Effect.writeState _ _ => true
  | _ => false

def isRotateE : Effect → Bool
  | Effect.rotate _ _ _ => true
  | _ => false

def isSymlinkE : Effect → Bool
  | Effect.unlinkCurrent _ => true
  | Effect.symlinkCurrent _ _ => true
  | _ => false

/-- Effects that mutate persistent state: state-file writes, rotation
(deletion of snapshots), and re-linking the `current` symlink. -/
def isMutEffect (e : Effect) : Bool := isWriteStateE e || isRotateE e || isSymlinkE e

def hasWriteState (t : List Effect) : Bool := t.any isWriteStateE

def hasRotate (t : List Effect) : Bool := t.any isRotateE

def hasSymlink (t : List Effect) : Bool := t.any isSymlinkE

def hasMut (t : List Effect) : Bool := t.any isMutEffect

def countWake (t : List Effect) : Nat :=
  t.countP (fun e => match e with | Effect.wake _ => true | _ => false)

def hasLogCheck (src : String) (t : List Effect) : Bool :=
  t.any (fun e => match e with | Effect.logCheck s => s == src | _ => false)

def rotateOkE (x : String) : Effect → Bool
  | Effect.rotate _ _ ex => ex == x
  | _ => true

/-- Every rotation effect in the trace carries `x` as its exclude argument. -/
def rotateExcludeOnly (x : String) (t : List Effect) : Bool :=
  t.all (rotateOkE x)

/-! ### Concrete fixtures -/

def exSettings : GeneralSettings := ⟨"", "", "", "", "", "/b"⟩

/-- Filesystem before any backup: the backup root exists, the state
directory does not, no state files. -/
def exFS0 : FS := ⟨["/b"], []⟩

def exLoc : BackupLocation := (BackupLocation.init exSettings exFS0).1

def exJobSettings : JobSettings := ⟨"/data/docs", "/b"⟩

/-- Filesystem with a prior state record `2024-01-01` for `/data/docs`. -/
def exFS1 : FS :=
  ⟨["/b", "/b/rsync-backup"],
   [(ospJoin exLoc.state_dir [create_hash "/data/docs"], "2024-01-01")]⟩

/-- A remote environment in which every probe succeeds. -/
def exRemoteOk : RemoteEnv := ⟨true, [], true, 1⟩

/-- Job with no prior state file, no extra flags, run on 2024-01-10. -/
def exJobNoState : BackupJob := mkBackupJob exLoc exJobSettings exFS0 [] "2024-01-10"

/-- Job with prior state `2024-01-01`, run on 2024-01-10. -/
def exJobPrev : BackupJob := mkBackupJob exLoc exJobSettings exFS1 [] "2024-01-10"

/-- Job run with `--force` on the same day as the recorded state. -/
def exJobForce : BackupJob :=
  mkBackupJob exLoc exJobSettings exFS1 ["--force"] "2024-01-01"

/-- Job run with `--dry-run`, no prior state. -/
def exJobDry : BackupJob :=
  mkBackupJob exLoc exJobSettings exFS0 ["--dry-run"] "2024-01-10"

/-- A second job in the same batch, backing up a different source. -/
def exJob2 : BackupJob :=
  mkBackupJob exLoc ⟨"/data/other", "/b"⟩ exFS0 [] "2024-01-10"

/-- Availability-stage oracle: initial ping fails, the first re-probe
after a wake packet succeeds. -/
def c6env : RemoteEnv := ⟨false, [true], false, 0⟩

/-! ### Helper lemmas about strings and path joining -/

lemma strData_append (x y : String) : (x ++ y).data = x.data ++ y.data := by
  cases x
  cases y
  rfl

lemma strData_mk (l : List Char) : (String.mk l).data = l := rfl

lemma strExt {x y : String} (h : x.data = y.data) : x = y := by
  cases x
  cases y
  exact congrArg String.mk h

lemma strNeNil {p : String} (h : p ≠ "") : p.data ≠ [] := by
  intro hd
  exact h (strExt hd)

lemma slashStr_data : ("/" : String).data = [slashChar] := by decide

lemma slashChar_eq : slashChar = '/' := by decide

lemma endsSlashL_concat (l : List Char) : endsSlashL (l ++ [slashChar]) = true := by
  unfold endsSlashL
  rw [List.getLast?_concat]
  rfl

lemma endsSlashL_append_cons (l : List Char) (a : Char) (m : List Char) :
    endsSlashL (l ++ a :: m) = endsSlashL (a :: m) := by
  unfold endsSlashL
  rw [List.getLast?_append_cons]

lemma endsSlashL_cons_of_ne_nil (a : Char) {m : List Char} (h : m ≠ []) :
    endsSlashL (a :: m) = endsSlashL m := by
  unfold endsSlashL
  rw [show a :: m = [a] ++ m from rfl, List.getLast?_append_of_ne_nil _ h]

lemma isEmpty_append_cons (l : List Char) (a : Char) (m : List Char) :
    (l ++ a :: m).isEmpty = false := by
  cases l <;> rfl

lemma ospJoin2_normal (a b : String) (ha1 : a.data.isEmpty = false)
    (ha2 : endsSlashL a.data = false) (hb : startsSlashL b.data = false) :
    ospJoin2 a b = String.mk (a.data ++ slashChar :: b.data) := by
  unfold ospJoin2
  rw [hb, ha1, ha2]
  simp

lemma ospJoin2_ends_slash (a b : String) (ha : endsSlashL a.data = true)
    (hb : startsSlashL b.data = false) :
    ospJoin2 a b = String.mk (a.data ++ b.data) := by
  unfold ospJoin2
  rw [hb, ha]
  simp

/-! ### Claim C4 -/

/-- C4 (corrected).  The `--link-dest` flag is appended unconditionally
(backup.py line 393), so it is present in the transfer command even when
no prior StateRecord exists; in that case `os.path.join` collapses the
empty `prev_id` component and the baseline path is
`{target_root}/{subfolder}`.  When a prior record with non-empty id
`prev_id` exists (paths in normal form: non-empty target root without a
trailing separator, id and subfolder without a leading or trailing
separator), the baseline path equals `{target_root}/{prev_id}/{subfolder}`
as the claim states. -/
theorem C4_link_dest_always_present (loc : BackupLocation) (s : JobSettings)
    (fs : FS) (args : List String) (today : String)
    (ht1 : s.target_dir.data.isEmpty = false)
    (ht2 : endsSlashL s.target_dir.data = false)
    (hsub : startsSlashL (get_basename s.source_dir).data = false)
    (hpid1 : startsSlashL (get_previous_id loc fs s.source_dir).data = false)
    (hpid2 : endsSlashL (get_previous_id loc fs s.source_dir).data = false) :
    ("--link-dest=" ++ (mkBackupJob loc s fs args today).prev_target)
        ∈ build_rsync_cmd (mkBackupJob loc s fs args today) ∧
    (get_previous_id loc fs s.source_dir = "" →
        (mkBackupJob loc s fs args today).prev_target
          = s.target_dir ++ "/" ++ get_basename s.source_dir) ∧
    (get_previous_id loc fs s.source_dir ≠ "" →
        (mkBackupJob loc s fs args today).prev_target
          = s.target_dir ++ "/" ++ get_previous_id loc fs s.source_dir ++ "/"
              ++ get_basename s.source_dir) := by
  refine ⟨?_, ?_, ?_⟩
  · simp [build_rsync_cmd]
  · intro hpid
    have hpt : (mkBackupJob loc s fs args today).prev_target
        = ospJoin2 (ospJoin2 s.target_dir (get_previous_id loc fs s.source_dir))
            (get_basename s.source_dir) := rfl
    rw [hpt, hpid]
    rw [show ospJoin2 s.target_dir "" = String.mk (s.target_dir.data ++ [slashChar]) by
      rw [ospJoin2_normal s.target_dir "" ht1 ht2 rfl]]
    rw [ospJoin2_ends_slash _ _ (by exact endsSlashL_concat s.target_dir.data) hsub]
    apply strExt
    simp only [strData_mk, strData_append, slashStr_data]
    simp [List.append_assoc, slashChar_eq]
  · intro hpid
    have hpt : (mkBackupJob loc s fs args today).prev_target
        = ospJoin2 (ospJoin2 s.target_dir (get_previous_id loc fs s.source_dir))
            (get_basename s.source_dir) := rfl
    have hnd : (get_previous_id loc fs s.source_dir).data ≠ [] := strNeNil hpid
    rw [hpt, ospJoin2_normal s.target_dir _ ht1 ht2 hpid1]
    rw [ospJoin2_normal _ _
      (by exact isEmpty_append_cons s.target_dir.data slashChar
            (get_previous_id loc fs s.source_dir).data)
      (by rw [show (String.mk (s.target_dir.data ++ slashChar ::
                (get_previous_id loc fs s.source_dir).data)).data
              = s.target_dir.data ++ slashChar ::
                  (get_previous_id loc fs s.source_dir).data from rfl,
            endsSlashL_append_cons, endsSlashL_cons_of_ne_nil slashChar hnd]
          exact hpid2)
      hsub]
    apply strExt
    simp only [strData_mk, strData_append, slashStr_data]
    simp [List.append_assoc, slashChar_eq]

/-- Witness for C4 at the fixture with a prior record `2024-01-01`. -/
theorem C4_link_dest_always_present_witness :
    ("--link-dest=" ++ exJobPrev.prev_target) ∈ build_rsync_cmd exJobPrev ∧
    exJobPrev.prev_target = "/b" ++ "/" ++ "2024-01-01" ++ "/" ++ "docs" := by
  have h := C4_link_dest_always_present exLoc exJobSettings exFS1 [] "2024-01-10"
    (by decide) (by decide) (by decide) (by decide) (by decide)
  refine ⟨h.1, ?_⟩
  have h2 := h.2.2 (by decide)
  exact h2.trans (by decide)

/-- Counterexample for C4 as stated: `exJobNoState` has no prior
StateRecord (`prev_id = \x22\x22`), yet its transfer command does contain a
`--link-dest` flag, pointing at `{target_root}/{subfolder}`. -/
theorem C4_cex :
    exJobNoState.prev_id = "" ∧
    "--link-dest=/b/docs" ∈ build_rsync_cmd exJobNoState := by
  exact ⟨rfl, by decide⟩

/-! ### Lemmas about effect traces -/

lemma hasRotate_cons (e : Effect) (t : List Effect) :
    hasRotate (e :: t) = (isRotateE e || hasRotate t) := by
  simp [hasRotate]

lemma hasRotate_append (a b : List Effect) :
    hasRotate (a ++ b) = (hasRotate a || hasRotate b) := by
  simp [hasRotate, List.any_append]

lemma hasMut_cons (e : Effect) (t : List Effect) :
    hasMut (e :: t) = (isMutEffect e || hasMut t) := by
  simp [hasMut]

lemma hasMut_append (a b : List Effect) :
    hasMut (a ++ b) = (hasMut a || hasMut b) := by
  simp [hasMut, List.any_append]

lemma rotateExcludeOnly_cons (x : String) (e : Effect) (t : List Effect) :
    rotateExcludeOnly x (e :: t) = (rotateOkE x e && rotateExcludeOnly x t) := by
  simp [rotateExcludeOnly]

lemma rotateExcludeOnly_append (x : String) (a b : List Effect) :
    rotateExcludeOnly x (a ++ b)
      = (rotateExcludeOnly x a && rotateExcludeOnly x b) := by
  simp [rotateExcludeOnly, List.all_append]

lemma isRotateE_of_not_mut {e : Effect} (h : isMutEffect e = false) :
    isRotateE e = false := by
  cases e <;> simp_all [isMutEffect, isWriteStateE, isRotateE, isSymlinkE]

lemma isWriteStateE_of_not_mut {e : Effect} (h : isMutEffect e = false) :
    isWriteStateE e = false := by
  cases e <;> simp_all [isMutEffect, isWriteStateE, isRotateE, isSymlinkE]

lemma isSymlinkE_of_not_mut {e : Effect} (h : isMutEffect e = false) :
    isSymlinkE e = false := by
  cases e <;> simp_all [isMutEffect, isWriteStateE, isRotateE, isSymlinkE]

lemma rotateOkE_of_not_rotate (x : String) {e : Effect} (h : isRotateE e = false) :
    rotateOkE x e = true := by
  cases e <;> simp_all [isRotateE, rotateOkE]

lemma hasMut_eq_false {t : List Effect} (h : ∀ e ∈ t, isMutEffect e = false) :
    hasMut t = false := by
  simp only [hasMut, List.any_eq_false]
  intro e he
  simp [h e he]

lemma hasRotate_eq_false {t : List Effect} (h : ∀ e ∈ t, isMutEffect e = false) :
    hasRotate t = false := by
  simp only [hasRotate, List.any_eq_false]
  intro e he
  simp [isRotateE_of_not_mut (h e he)]

lemma hasWriteState_eq_false {t : List Effect} (h : ∀ e ∈ t, isMutEffect e = false) :
    hasWriteState t = false := by
  simp only [hasWriteState, List.any_eq_false]
  intro e he
  simp [isWriteStateE_of_not_mut (h e he)]

lemma hasSymlink_eq_false {t : List Effect} (h : ∀ e ∈ t, isMutEffect e = false) :
    hasSymlink t = false := by
  simp only [hasSymlink, List.any_eq_false]
  intro e he
  simp [isSymlinkE_of_not_mut (h e he)]

lemma rotateExcludeOnly_eq_true (x : String) {t : List Effect}
    (h : ∀ e ∈ t, isMutEffect e = false) : rotateExcludeOnly x t = true := by
  simp only [rotateExcludeOnly, List.all_eq_true]
  intro e he
  exact rotateOkE_of_not_rotate x (isRotateE_of_not_mut (h e he))

/-- The wake loop emits only wake packets and probe commands. -/
lemma wakeAttempts_not_mut (hst hw : String) :
    ∀ (l : List Bool), ∀ e ∈ wakeAttempts hst hw l, isMutEffect e = false := by
  intro l
  induction l with
  | nil => intro e he; cases he
  | cons ok rest ih =>
    intro e he
    simp only [wakeAttempts, List.mem_cons] at he
    rcases he with h1 | h1 | h1
    · simp [h1, isMutEffect, isWriteStateE, isRotateE, isSymlinkE]
    · simp [h1, isMutEffect, isWriteStateE, isRotateE, isSymlinkE]
    · cases ok with
      | true => simp at h1
      | false => exact ih e h1

lemma availabilityTest_not_mut (host hw : String) (env : RemoteEnv) :
    ∀ e ∈ (availabilityTest host hw env).1, isMutEffect e = false := by
  intro e he
  unfold availabilityTest at he
  by_cases hp : env.pingShort = false
  · rw [if_pos hp] at he
    simp only [List.mem_cons] at he
    rcases he with h1 | h1
    · simp [h1, isMutEffect, isWriteStateE, isRotateE, isSymlinkE]
    · exact wakeAttempts_not_mut host hw _ e h1
  · rw [if_neg hp] at he
    simp only [List.mem_cons, List.not_mem_nil, or_false] at he
    simp [he, isMutEffect, isWriteStateE, isRotateE, isSymlinkE]

lemma remoteServerCheck_not_mut (job : BackupJob) (loc : BackupLocation)
    (renv : RemoteEnv) :
    ∀ e ∈ (remoteServerCheck job loc renv).1, isMutEffect e = false := by
  intro e he
  unfold remoteServerCheck at he
  by_cases h1 : truthy (availabilityTest loc.source_host loc.hwaddr renv).2
  · rw [if_pos h1] at he
    by_cases h2 : (accessTest loc.source_host loc.source_user renv).2
    · rw [if_pos h2] at he
      simp only [List.mem_append] at he
      rcases he with (h3 | h3) | h3
      · exact availabilityTest_not_mut _ _ _ e h3
      · simp only [accessTest, List.mem_cons, List.not_mem_nil, or_false] at h3
        simp [h3, isMutEffect, isWriteStateE, isRotateE, isSymlinkE]
      · simp only [remoteDirTest, List.mem_cons, List.not_mem_nil, or_false] at h3
        simp [h3, isMutEffect, isWriteStateE, isRotateE, isSymlinkE]
    · rw [if_neg h2] at he
      simp only [List.mem_append] at he
      rcases he with h3 | h3
      · exact availabilityTest_not_mut _ _ _ e h3
      · simp only [accessTest, List.mem_cons, List.not_mem_nil, or_false] at h3
        simp [h3, isMutEffect, isWriteStateE, isRotateE, isSymlinkE]
  · rw [if_neg h1] at he
    exact availabilityTest_not_mut _ _ _ e he

/-- On a non-dry-run job the counting `Popen` receives `None` and raises
`TypeError`; its only effect is that spawn attempt. -/
lemma rsync_nondry (job : BackupJob) (out : List String) (n : Nat)
    (hjd : job.dry_run = false) :
    Backup.rsync job out n
      = ([Effect.spawnCount none], Except.error (PyError.typeError noneIterMsg)) := by
  unfold Backup.rsync
  rw [hjd]
  simp [countingPass, pyAppend, deref]

/-- On a dry-run job the counting pass spawns the assembled command; the
run then raises `TypeError` on the first output line (`bytes` vs `str`
pattern) or, with no output, `AttributeError` in `send_message`. -/
lemma rsync_dry (job : BackupJob) (out : List String) (n : Nat)
    (hjd : job.dry_run = true) :
    Backup.rsync job out n
      = ([Effect.spawnCount (some (build_rsync_cmd job))],
         if out.isEmpty then Except.error (PyError.attributeError "source_user")
         else Except.error (PyError.typeError bytesPatternMsg)) := by
  unfold Backup.rsync
  rw [hjd]
  by_cases ho : out.isEmpty <;>
    simp [countingPass, deref, ho, Backup.getattr, Backup.instanceAttrs,
      Backup.classAttrs]

/-- `Backup.rsync` only spawns subprocesses; it never writes state,
rotates or re-links. -/
lemma rsync_not_mut (job : BackupJob) (out : List String) (n : Nat) :
    ∀ e ∈ (Backup.rsync job out n).1, isMutEffect e = false := by
  intro e he
  cases hjd : job.dry_run with
  | true =>
    rw [rsync_dry job out n hjd] at he
    simp only [List.mem_cons, List.not_mem_nil, or_false] at he
    simp [he, isMutEffect, isWriteStateE, isRotateE, isSymlinkE]
  | false =>
    rw [rsync_nondry job out n hjd] at he
    simp only [List.mem_cons, List.not_mem_nil, or_false] at he
    simp [he, isMutEffect, isWriteStateE, isRotateE, isSymlinkE]

/-- `Backup.update_state` always raises before doing anything: `Backup`
has no `__create_hash__` attribute. -/
lemma update_state_eq (a b c : String) :
    update_state a b c
      = ([], Except.error (PyError.attributeError "__create_hash__")) := rfl

/-- `Backup.update_symlink` always raises before doing anything: `Backup`
has no `backup_root` attribute. -/
lemma update_symlink_eq (a : String) :
    update_symlink a
      = ([], Except.error (PyError.attributeError "backup_root")) := rfl

/-! ### Equation lemmas for the orchestrator -/

lemma execute_backup_skip (loc : BackupLocation) (job : BackupJob) (renv : RemoteEnv)
    (rc : List Effect × Except PyError Unit) (heq : job.new_id = job.prev_id) :
    execute_backup loc job renv rc
      = ([Effect.logCheck job.source_dir], Except.ok (none, false)) := by
  simp [execute_backup, heq]

lemma execute_backup_unreach (loc : BackupLocation) (job : BackupJob)
    (renv : RemoteEnv) (rc : List Effect × Except PyError Unit)
    (hne : job.new_id ≠ job.prev_id)
    (hrc : (remoteServerCheck job loc renv).2 = false) :
    execute_backup loc job renv rc
      = (Effect.logCheck job.source_dir :: (remoteServerCheck job loc renv).1,
         Except.ok (none, false)) := by
  simp [execute_backup, hne, hrc]

lemma execute_backup_err (loc : BackupLocation) (job : BackupJob) (renv : RemoteEnv)
    (t2 : List Effect) (e : PyError)
    (hne : job.new_id ≠ job.prev_id)
    (hrc : (remoteServerCheck job loc renv).2 = true) :
    execute_backup loc job renv (t2, Except.error e)
      = (Effect.logCheck job.source_dir :: ((remoteServerCheck job loc renv).1 ++ t2),
         Except.error e) := by
  simp [execute_backup, hne, hrc]

/-- On the success path of a non-dry-run job, the state update of line 243
raises `AttributeError` before the rotation call of line 245 is reached. -/
lemma execute_backup_ok_nondry (loc : BackupLocation) (job : BackupJob)
    (renv : RemoteEnv) (t2 : List Effect)
    (hne : job.new_id ≠ job.prev_id)
    (hrc : (remoteServerCheck job loc renv).2 = true)
    (hd : job.dry_run = false) :
    execute_backup loc job renv (t2, Except.ok ())
      = (Effect.logCheck job.source_dir :: ((remoteServerCheck job loc renv).1 ++ t2),
         Except.error (PyError.attributeError "__create_hash__")) := by
  simp [execute_backup, hne, hrc, hd, update_state_eq]

lemma execute_backup_ok_dry (loc : BackupLocation) (job : BackupJob)
    (renv : RemoteEnv) (t2 : List Effect)
    (hne : job.new_id ≠ job.prev_id)
    (hrc : (remoteServerCheck job loc renv).2 = true)
    (hd : job.dry_run = true) :
    execute_backup loc job renv (t2, Except.ok ())
      = (Effect.logCheck job.source_dir :: ((remoteServerCheck job loc renv).1 ++ t2),
         Except.ok (some job.new_id, true)) := by
  simp [execute_backup, hne, hrc, hd]

lemma processJob_err (loc : BackupLocation) (jr : JobRun) (tr : List Effect)
    (e : PyError)
    (h : execute_backup loc jr.job jr.renv jr.rsyncCall = (tr, Except.error e)) :
    processJob loc jr = (tr, Except.error e) := by
  unfold processJob
  rw [h]

lemma processJob_of_none (loc : BackupLocation) (jr : JobRun) (tr : List Effect)
    (h : execute_backup loc jr.job jr.renv jr.rsyncCall
          = (tr, Except.ok (none, false))) :
    processJob loc jr = (tr, Except.ok ()) := by
  unfold processJob
  rw [h]
  rfl

lemma runJobs_cons_err (loc : BackupLocation) (jr : JobRun) (rest : List JobRun)
    (tr : List Effect) (e : PyError)
    (h : processJob loc jr = (tr, Except.error e)) :
    runJobs loc (jr :: rest) = (tr, Except.error e) := by
  unfold runJobs
  rw [h]

/-! ### Claim C1 -/

/-- C1 (corrected).  After a transfer call that returns normally on a
non-dry-run job, the orchestrator first attempts `update_state` (line
243), which raises `AttributeError`, so the rotation call of line 245 is
never reached: the result is the error and the trace holds no rotation
effect.  Moreover any rotation effect `execute_backup` could ever emit
carries `job.prev_target` — the previous snapshot's path, not the newly
created snapshot's path — as the excluded path (third conjunct). -/
theorem C1_rotation_unreached_and_excludes_prev (loc : BackupLocation)
    (job : BackupJob) (renv : RemoteEnv) (t : List Effect)
    (hd : job.dry_run = false)
    (hne : job.new_id ≠ job.prev_id)
    (hrc : (remoteServerCheck job loc renv).2 = true)
    (ht : hasRotate t = false) :
    (execute_backup loc job renv (t, Except.ok ())).2
        = Except.error (PyError.attributeError "__create_hash__") ∧
    hasRotate (execute_backup loc job renv (t, Except.ok ())).1 = false ∧
    (∀ (t2 : List Effect) (r2 : Except PyError Unit),
        rotateExcludeOnly job.prev_target t2 = true →
        rotateExcludeOnly job.prev_target (execute_backup loc job renv (t2, r2)).1
          = true) := by
  have hrem : hasRotate (remoteServerCheck job loc renv).1 = false :=
    hasRotate_eq_false (remoteServerCheck_not_mut job loc renv)
  have hremo : rotateExcludeOnly job.prev_target (remoteServerCheck job loc renv).1
      = true :=
    rotateExcludeOnly_eq_true job.prev_target (remoteServerCheck_not_mut job loc renv)
  refine ⟨?_, ?_, ?_⟩
  · rw [execute_backup_ok_nondry loc job renv t hne hrc hd]
  · rw [execute_backup_ok_nondry loc job renv t hne hrc hd]
    simp [hasRotate_cons, hasRotate_append, hrem, ht, isRotateE]
  · intro t2 r2 h2
    cases r2 with
    | error e =>
      rw [execute_backup_err loc job renv t2 e hne hrc]
      simp [rotateExcludeOnly_cons, rotateExcludeOnly_append, hremo, h2, rotateOkE]
    | ok u =>
      cases u
      rw [execute_backup_ok_nondry loc job renv t2 hne hrc hd]
      simp [rotateExcludeOnly_cons, rotateExcludeOnly_append, hremo, h2, rotateOkE]

/-- Witness for C1 at the fixture job with prior state `2024-01-01`. -/
theorem C1_rotation_unreached_and_excludes_prev_witness :
    (execute_backup exLoc exJobPrev exRemoteOk ([], Except.ok ())).2
        = Except.error (PyError.attributeError "__create_hash__") ∧
    hasRotate (execute_backup exLoc exJobPrev exRemoteOk ([], Except.ok ())).1
        = false := by
  have h := C1_rotation_unreached_and_excludes_prev exLoc exJobPrev exRemoteOk []
    (by decide) (by decide) (by decide) (by decide)
  exact ⟨h.1, h.2.1⟩

/-- Counterexample for C1 as stated: a successful non-dry-run transfer
(`rsyncCall` returned normally) after which the trace holds no rotation
effect at all, and the path that line 245 would pass as `exclude`
(`job.prev_target`) differs from the newly created snapshot's path. -/
theorem C1_cex :
    exJobPrev.dry_run = false ∧
    hasRotate (execute_backup exLoc exJobPrev exRemoteOk ([], Except.ok ())).1
        = false ∧
    exJobPrev.prev_target
        ≠ ospJoin exJobPrev.target_dir [exJobPrev.new_id, exJobPrev.subfolder] := by
  exact ⟨by decide, by decide, by decide⟩

/-! ### Claim C2 -/

/-- C2 (corrected).  When the transfer layer raises
`CalledProcessError n` (the error that lines 458-459 raise on a non-zero
exit status `n`), the job's result is that error, no state file is
written and no rotation is invoked — but the error propagates out of the
per-job loop of `__call__`, which has no handler, so the remaining jobs
of the batch are never processed. -/
theorem C2_transfer_failure_aborts_batch (loc : BackupLocation) (job : BackupJob)
    (renv : RemoteEnv) (n : Nat) (t : List Effect) (rest : List JobRun)
    (hne : job.new_id ≠ job.prev_id)
    (hrc : (remoteServerCheck job loc renv).2 = true)
    (ht : ∀ e ∈ t, isMutEffect e = false) :
    (processJob loc ⟨job, renv, (t, Except.error (PyError.calledProcessError n))⟩).2
        = Except.error (PyError.calledProcessError n) ∧
    hasWriteState
      (processJob loc ⟨job, renv, (t, Except.error (PyError.calledProcessError n))⟩).1
        = false ∧
    hasRotate
      (processJob loc ⟨job, renv, (t, Except.error (PyError.calledProcessError n))⟩).1
        = false ∧
    runJobs loc (⟨job, renv, (t, Except.error (PyError.calledProcessError n))⟩ :: rest)
        = ((processJob loc
              ⟨job, renv, (t, Except.error (PyError.calledProcessError n))⟩).1,
           Except.error (PyError.calledProcessError n)) := by
  have hx : execute_backup loc job renv (t, Except.error (PyError.calledProcessError n))
      = (Effect.logCheck job.source_dir :: ((remoteServerCheck job loc renv).1 ++ t),
         Except.error (PyError.calledProcessError n)) :=
    execute_backup_err loc job renv t _ hne hrc
  have hp : processJob loc ⟨job, renv, (t, Except.error (PyError.calledProcessError n))⟩
      = (Effect.logCheck job.source_dir :: ((remoteServerCheck job loc renv).1 ++ t),
         Except.error (PyError.calledProcessError n)) :=
    processJob_err loc _ _ _ hx
  have hmemb : ∀ e ∈ Effect.logCheck job.source_dir ::
      ((remoteServerCheck job loc renv).1 ++ t), isMutEffect e = false := by
    intro e he
    simp only [List.mem_cons, List.mem_append] at he
    rcases he with h1 | h1 | h1
    · simp [h1, isMutEffect, isWriteStateE, isRotateE, isSymlinkE]
    · exact remoteServerCheck_not_mut job loc renv e h1
    · exact ht e h1
  refine ⟨by rw [hp], ?_, ?_, ?_⟩
  · rw [hp]
    exact hasWriteState_eq_false hmemb
  · rw [hp]
    exact hasRotate_eq_false hmemb
  · rw [runJobs_cons_err loc _ rest _ _ hp, hp]

/-- Witness for C2 at the fixture job, exit status 23, empty batch tail. -/
theorem C2_transfer_failure_aborts_batch_witness :
    (processJob exLoc
        ⟨exJobPrev, exRemoteOk, ([], Except.error (PyError.calledProcessError 23))⟩).2
      = Except.error (PyError.calledProcessError 23) ∧
    hasWriteState (processJob exLoc
        ⟨exJobPrev, exRemoteOk, ([], Except.error (PyError.calledProcessError 23))⟩).1
      = false := by
  have h := C2_transfer_failure_aborts_batch exLoc exJobPrev exRemoteOk 23 [] []
    (by decide) (by decide) (by simp)
  exact ⟨h.1, h.2.1⟩

/-- Counterexample for C2 as stated: in a two-job batch whose first job's
transfer exits 23, the orchestrator's result is the propagated error and
the second job's entry log never appears in the trace — the remaining job
is not processed. -/
theorem C2_cex :
    (runJobs exLoc
        [⟨exJobPrev, exRemoteOk, ([], Except.error (PyError.calledProcessError 23))⟩,
         mkJobRun exJob2 exRemoteOk [] 0]).2
      = Except.error (PyError.calledProcessError 23) ∧
    hasLogCheck "/data/other"
      (runJobs exLoc
        [⟨exJobPrev, exRemoteOk, ([], Except.error (PyError.calledProcessError 23))⟩,
         mkJobRun exJob2 exRemoteOk [] 0]).1 = false := by
  exact ⟨rfl, by decide⟩

/-! ### Claim C3 -/

/-- C3 (code bug).  First backup of an unseen source (no state file),
transfer exits zero, no dry-run flag: instead of writing the state file
and re-linking `current`, `Backup.update_state` raises `AttributeError`
(`Backup` has no `__create_hash__`; its `state_dir` is also missing), so
no state file is written; the error propagates, and `update_symlink`
(which would itself raise on the missing `backup_root`) is never reached:
no symlink effect appears. -/
theorem C3_first_backup_state_crash :
    (execute_backup exLoc exJobNoState exRemoteOk ([], Except.ok ())).2
        = Except.error (PyError.attributeError "__create_hash__") ∧
    hasWriteState (execute_backup exLoc exJobNoState exRemoteOk ([], Except.ok ())).1
        = false ∧
    (processJob exLoc ⟨exJobNoState, exRemoteOk, ([], Except.ok ())⟩).2
        = Except.error (PyError.attributeError "__create_hash__") ∧
    hasSymlink (processJob exLoc ⟨exJobNoState, exRemoteOk, ([], Except.ok ())⟩).1
        = false := by
  exact ⟨rfl, by decide, rfl, by decide⟩

/-! ### Claim C5 -/

/-- C5 (code bug).  `BackupJob.__init__` parses `--force` (stripping it
from the rsync arguments and setting `self.force = True`), but
`execute_backup` decides purely on `job.new_id != job.prev_id` (line
232): a second run on the same calendar day with the force flag set is
still skipped — the job returns `(False, False)` having emitted nothing
but its entry log, with no subprocess spawned and no state write.  (The
non-force branch even assigns the misspelled attribute `self.foce`.) -/
theorem C5_force_flag_has_no_effect :
    exJobForce.force = some true ∧
    exJobForce.extra_rsync_args = [] ∧
    exJobForce.new_id = exJobForce.prev_id ∧
    execute_backup exLoc exJobForce exRemoteOk ([], Except.ok ())
      = ([Effect.logCheck "/data/docs"], Except.ok (none, false)) := by
  exact ⟨rfl, rfl, rfl, rfl⟩

/-! ### Claim C6 -/

/-- C6 (code bug).  With the initial probe failing and the first re-probe
after a wake packet succeeding, the wake loop breaks early (exactly one
wake packet is sent), but `__AvailabilityTest__` then falls off the end
of the function and returns `None` — falsy — so the whole readiness check
reports not-ready even though a re-probe succeeded.  The claim says the
availability stage passes whenever any re-probe succeeds. -/
theorem C6_wake_success_not_reported :
    (availabilityTest "nas" "aa:bb:cc:dd:ee:ff" c6env).2 = none ∧
    countWake (availabilityTest "nas" "aa:bb:cc:dd:ee:ff" c6env).1 = 1 ∧
    (remoteServerCheck exJobPrev exLoc c6env).2 = false := by
  exact ⟨rfl, rfl, rfl⟩

/-! ### Claim C7 -/

/-- C7 (confirmed).  For every non-dry-run job the counting-pass block
appends `'--dry-run '` to the shared `rsync_cmd` list and rebinds
`_rsync_cmd` to the `None` returned by `list.append`; the counting
subprocess is therefore spawned with `None` (raising `TypeError`), and
the mutated list that the actual transfer would use contains
`'--dry-run '`. -/
theorem C7_counting_pass_rebinds_none (job : BackupJob) (out : List String)
    (n : Nat) (hd : job.dry_run = false) :
    countingPass job.dry_run (build_rsync_cmd job)
        = (PyListRef.pyNone, build_rsync_cmd job ++ ["--dry-run "]) ∧
    deref (build_rsync_cmd job ++ ["--dry-run "]) PyListRef.pyNone = none ∧
    Backup.rsync job out n
        = ([Effect.spawnCount none], Except.error (PyError.typeError noneIterMsg)) ∧
    "--dry-run " ∈ (countingPass job.dry_run (build_rsync_cmd job)).2 := by
  rw [hd]
  refine ⟨rfl, rfl, rsync_nondry job out n hd, ?_⟩
  simp [countingPass, pyAppend]

/-- Witness for C7 at the fixture job without the dry-run flag. -/
theorem C7_counting_pass_rebinds_none_witness :
    Backup.rsync exJobNoState [] 0
        = ([Effect.spawnCount none], Except.error (PyError.typeError noneIterMsg)) ∧
    "--dry-run " ∈ (countingPass exJobNoState.dry_run (build_rsync_cmd exJobNoState)).2 := by
  have h := C7_counting_pass_rebinds_none exJobNoState [] 0 (by decide)
  exact ⟨h.2.2.1, h.2.2.2⟩

/-! ### Claim C8 -/

/-- C8 (confirmed).  For a dry-run job, whatever the probe outcomes and
the transfer subprocess's behaviour, processing the job emits no
state-file write, no rotation and no symlink re-link: all three side
effects are suppressed. -/
theorem C8_dry_run_suppresses_side_effects (loc : BackupLocation) (job : BackupJob)
    (renv : RemoteEnv) (out : List String) (n : Nat) (hd : job.dry_run = true) :
    hasWriteState (processJob loc (mkJobRun job renv out n)).1 = false ∧
    hasRotate (processJob loc (mkJobRun job renv out n)).1 = false ∧
    hasSymlink (processJob loc (mkJobRun job renv out n)).1 = false := by
  have hr : ∃ e, Backup.rsync job out n
      = ([Effect.spawnCount (some (build_rsync_cmd job))], Except.error e) := by
    by_cases ho : out.isEmpty
    · exact ⟨PyError.attributeError "source_user",
        by rw [rsync_dry job out n hd, if_pos ho]⟩
    · exact ⟨PyError.typeError bytesPatternMsg,
        by rw [rsync_dry job out n hd, if_neg ho]⟩
  obtain ⟨e, he⟩ := hr
  have hmemb : ∀ x ∈ (processJob loc (mkJobRun job renv out n)).1,
      isMutEffect x = false := by
    intro x hx
    by_cases hne : job.new_id = job.prev_id
    · rw [processJob_of_none loc _ _
        (execute_backup_skip loc job renv _ hne)] at hx
      simp only [List.mem_cons, List.not_mem_nil, or_false] at hx
      simp [hx, isMutEffect, isWriteStateE, isRotateE, isSymlinkE]
    · by_cases hrc : (remoteServerCheck job loc renv).2 = true
      · have hx2 : execute_backup loc job renv (Backup.rsync job out n)
            = (Effect.logCheck job.source_dir ::
                ((remoteServerCheck job loc renv).1 ++
                  [Effect.spawnCount (some (build_rsync_cmd job))]),
               Except.error e) := by
          rw [he]
          exact execute_backup_err loc job renv _ e hne hrc
        rw [processJob_err loc _ _ _ hx2] at hx
        simp only [List.mem_cons, List.mem_append, List.not_mem_nil, or_false] at hx
        rcases hx with h1 | h1 | h1
        · simp [h1, isMutEffect, isWriteStateE, isRotateE, isSymlinkE]
        · exact remoteServerCheck_not_mut job loc renv x h1
        · simp [h1, isMutEffect, isWriteStateE, isRotateE, isSymlinkE]
      · rw [processJob_of_none loc _ _
          (execute_backup_unreach loc job renv _ hne
            (Bool.not_eq_true _ ▸ Bool.of_not_eq_true hrc))] at hx
        simp only [List.mem_cons] at hx
        rcases hx with h1 | h1
        · simp [h1, isMutEffect, isWriteStateE, isRotateE, isSymlinkE]
        · exact remoteServerCheck_not_mut job loc renv x h1
  exact ⟨hasWriteState_eq_false hmemb, hasRotate_eq_false hmemb,
    hasSymlink_eq_false hmemb⟩

/-- Witness for C8 at the fixture dry-run job. -/
theorem C8_dry_run_suppresses_side_effects_witness :
    hasWriteState (processJob exLoc (mkJobRun exJobDry exRemoteOk [] 0)).1 = false ∧
    hasRotate (processJob exLoc (mkJobRun exJobDry exRemoteOk [] 0)).1 = false ∧
    hasSymlink (processJob exLoc (mkJobRun exJobDry exRemoteOk [] 0)).1 = false :=
  C8_dry_run_suppresses_side_effects exLoc exJobDry exRemoteOk [] 0 (by decide)

/-! ### Claim C9 -/

/-- C9 (code bug).  `BackupLocation.__init__` checks whether the state
directory exists, but the body of that check is `pass` — the
`os.makedirs` call is commented out — so the filesystem is never
modified, and after construction against a root without the
`rsync-backup` directory the state directory still does not exist. -/
theorem C9_state_dir_never_created :
    (∀ (s : GeneralSettings) (fs : FS), (BackupLocation.init s fs).2 = fs) ∧
    (BackupLocation.init exSettings exFS0).1.state_dir = "/b/rsync-backup" ∧
    FS.pathExists (BackupLocation.init exSettings exFS0).2
        ((BackupLocation.init exSettings exFS0).1.state_dir) = false := by
  refine ⟨?_, rfl, rfl⟩
  intro s fs
  unfold BackupLocation.init
  simp

/-! ### Claim C10 -/

/-- Reference vector for the SHA-1 model (`sha1('abc')`). -/
theorem sha1_reference_vector :
    create_hash "abc" = "a9993e364706816aba3e25717850c26c9cd0d89d" := by decide

/-- C10 (corrected).  The identity hasher is deterministic (it is a pure
function of the raw path string), but it is not
path-normalization-invariant: the path is hashed as passed, without
normalization, so `/a/b/` and `/a/b` produce different digests. -/
theorem C10_hash_deterministic_not_invariant :
    (∀ p : String, create_hash p = create_hash p) ∧
    create_hash "/a/b/" ≠ create_hash "/a/b" :=
  ⟨fun _ => rfl, by decide⟩

/-- Counterexample for C10 as stated: the two spellings of the same
directory hash to different digests. -/
theorem C10_cex : create_hash "/a/b/" ≠ create_hash "/a/b" := by decide

end Pyrsync
